import Mathlib

/-!
Verification development for the resilience and session core of this
repository (`src/services/resilience.py`, `src/cache/session.py`,
`src/cache/redis.py`, `src/agent/fallbacks.py`).

Modelling conventions:
* Python strings are Lean `String`s; `str.lower()` is `String.toLower`;
  the `in` substring test is `strHasSub`.
* Python exceptions are modelled by `PyError` (message text and type name),
  the two pieces of information the code inspects.
* Async effects are modelled by explicit state passing; timing (backoff
  sleeps, rate-limiter delays, timeouts) is not observable in the model:
  a call that hits its timeout is modelled as the operation returning a
  timeout-shaped error, and the circuit breaker's reset timeout is taken
  as not elapsing during a single `resilient_call` (so an OPEN breaker
  stays OPEN for the duration of the call).
-/

/-- The code points of a string (strings are handled as code-point lists so
that all string operations reduce by structural recursion). -/
def strCodes (s : String) : List Nat := s.data.map Char.toNat

/-- ASCII lower-casing of one code point (Python `str.lower()` on the ASCII
strings the code inspects). -/
def lowerCode (n : Nat) : Nat := if 65 ≤ n ∧ n ≤ 90 then n + 32 else n

/-- Python `s.lower()`, as a code-point list. -/
def pyLower (s : String) : List Nat := (strCodes s).map lowerCode

/-- Substring test: does `hay` contain the code points of `needle`
(Python `needle in hay`)? -/
def hasSub (hay : List Nat) (needle : String) : Bool :=
  let n := strCodes needle
  (List.range (hay.length + 1)).any (fun i => (hay.drop i).take n.length == n)

namespace Resilience

/-- `CircuitState` from `src/services/resilience.py`. -/
inductive CircuitState where
  | CLOSED
  | OPEN
  | HALF_OPEN
deriving DecidableEq, Repr

/-- `ErrorCategory` from `src/services/resilience.py`. -/
inductive ErrorCategory where
  | TRANSIENT
  | RATE_LIMITED
  | CLIENT_ERROR
  | SERVER_ERROR
  | CONFIGURATION
  | UNKNOWN
deriving DecidableEq, Repr

/-- A Python exception as observed by the resilience layer: `str(error)`
and `type(error).__name__`. -/
structure PyError where
  msg : String
  tyName : String
deriving DecidableEq, Repr

/-- Rate-limit condition of `categorize_error` (first check). -/
def has_rate_limited_marker (e : PyError) : Bool :=
  let error_str := pyLower e.msg
  hasSub error_str "429" || hasSub error_str "rate limit" ||
    hasSub error_str "too many"

/-- Client-error condition of `categorize_error` (second check). -/
def has_client_error_marker (e : PyError) : Bool :=
  let error_str := pyLower e.msg
  ["400", "401", "403", "404"].any (fun code => hasSub error_str code)

/-- Configuration condition of `categorize_error` (third check). -/
def has_configuration_marker (e : PyError) : Bool :=
  let error_str := pyLower e.msg
  hasSub error_str "api key" || hasSub error_str "authentication" ||
    hasSub error_str "invalid key"

/-- Server-error condition of `categorize_error` (fourth check). -/
def has_server_error_marker (e : PyError) : Bool :=
  let error_str := pyLower e.msg
  ["500", "502", "503", "504"].any (fun code => hasSub error_str code)

/-- Transient condition of `categorize_error` on the message (fifth check). -/
def has_transient_str_marker (e : PyError) : Bool :=
  let error_str := pyLower e.msg
  ["timeout", "connection", "network", "reset", "refused"].any
    (fun term => hasSub error_str term)

/-- Transient condition of `categorize_error` on the type name (sixth check). -/
def has_transient_type_marker (e : PyError) : Bool :=
  let error_type := pyLower e.tyName
  ["timeout", "connection", "network", "http"].any
    (fun term => hasSub error_type term)

/-- `categorize_error` from `src/services/resilience.py` (lines 241-275):
an ordered cascade of lower-cased substring checks, first match wins. -/
def categorize_error (e : PyError) : ErrorCategory :=
  if has_rate_limited_marker e then .RATE_LIMITED
  else if has_client_error_marker e then .CLIENT_ERROR
  else if has_configuration_marker e then .CONFIGURATION
  else if has_server_error_marker e then .SERVER_ERROR
  else if has_transient_str_marker e then .TRANSIENT
  else if has_transient_type_marker e then .TRANSIENT
  else .UNKNOWN

/-- The control-flow-relevant part of `ServiceConfig`: the retry budget and
the breaker threshold (timing fields only influence delays, which are not
observable in the model). -/
structure ServiceConfigM where
  retry_attempts : Nat
  circuit_fail_max : Nat
deriving DecidableEq, Repr

/-- State of a `pybreaker.CircuitBreaker` as far as a single call can
observe it: closed with a consecutive-failure counter, or open.  The
half-open probe only occurs once `reset_timeout` has elapsed, which the
model takes to not happen during one `resilient_call`. -/
inductive BreakerState where
  | closed (failCount : Nat)
  | opened
deriving DecidableEq, Repr

/-- `get_circuit_state` as observed through the breaker registry. -/
def stateOf : BreakerState → CircuitState
  | .closed _ => .CLOSED
  | .opened => .OPEN

/-- An exception escaping one attempt: either the operation's own error
(re-raised by the breaker) or `pybreaker.CircuitBreakerError`. -/
inductive OpError where
  | exc (e : PyError)
  | circuitOpen
deriving DecidableEq, Repr

/-- One protected attempt: `breaker.call_async(func, ...)`.
`op` maps the invocation index to the operation's outcome (a timeout is the
operation returning a timeout-shaped error); `invocs` counts how many times
the underlying operation has actually been invoked.
pybreaker semantics: an open breaker rejects without invoking; a success
resets the failure counter; the failure that reaches `fail_max` opens the
breaker and raises `CircuitBreakerError` in place of the original error. -/
def attemptOnce (op : Nat → Except PyError α) (failMax : Nat)
    (b : BreakerState) (invocs : Nat) :
    Except OpError α × BreakerState × Nat :=
  match b with
  | .opened => (.error .circuitOpen, .opened, invocs)
  | .closed c =>
    match op invocs with
    | .ok v => (.ok v, .closed 0, invocs + 1)
    | .error e =>
      if failMax ≤ c + 1 then (.error .circuitOpen, .opened, invocs + 1)
      else (.error (.exc e), .closed (c + 1), invocs + 1)

/-- Outcome of the `AsyncRetrying` loop in `resilient_call`: the final
result or exception, the breaker afterwards, the number of operation
invocations, and the number of loop iterations (the local `attempts`
counter, incremented at the top of every iteration). -/
structure RunOut (α : Type) where
  res : Except OpError α
  breaker : BreakerState
  invocs : Nat
  attempts : Nat
deriving Repr

/-- The tenacity retry loop with `retry_if_exception_type(Exception)` and
`reraise=True`: every exception (including `CircuitBreakerError`) is
retried while attempts remain, and the last exception is re-raised once
`stop_after_attempt` is reached.  `fuel` is the number of further attempts
still allowed after the current one. -/
def retryGo (op : Nat → Except PyError α) (failMax : Nat) :
    Nat → BreakerState → Nat → Nat → RunOut α
  | 0, b, invocs, attempts =>
    let (r, b', inv') := attemptOnce op failMax b invocs
    ⟨r, b', inv', attempts + 1⟩
  | fuel + 1, b, invocs, attempts =>
    let (r, b', inv') := attemptOnce op failMax b invocs
    match r with
    | .ok v => ⟨.ok v, b', inv', attempts + 1⟩
    | .error _ => retryGo op failMax fuel b' inv' (attempts + 1)

/-- A caller-supplied fallback: a plain value, or a zero-argument callable
whose invocation yields `r` (an `Except.error` models the callable
raising). -/
inductive Fallback (α : Type) where
  | value (v : α)
  | producer (r : Except PyError α)
deriving Repr

/-- `ResilienceResult` from `src/services/resilience.py`. -/
structure ResilienceResult (α : Type) where
  success : Bool
  value : Option α
  error : Option String
  error_category : Option ErrorCategory
  attempts : Nat
  from_cache : Bool
  from_fallback : Bool
  circuit_state : CircuitState
deriving DecidableEq, Repr

/-- `_apply_fallback` from `src/services/resilience.py` (lines 472-491):
a present fallback marks the result as a fallback-derived success; a
raising producer records the producer's error message.  The function never
touches `error_category`, and on the success path it does not touch
`error` either. -/
def applyFallback (r : ResilienceResult α) (fb : Option (Fallback α)) :
    ResilienceResult α :=
  match fb with
  | none => r
  | some (.value v) =>
    { r with value := some v, success := true, from_fallback := true }
  | some (.producer (.ok v)) =>
    { r with value := some v, success := true, from_fallback := true }
  | some (.producer (.error e)) => { r with error := some e.msg }

/-- Everything a `resilient_call` run exposes: the returned result plus the
operation-invocation and loop-iteration counts and the final breaker
state (observable via a call counter on a test double and the breaker
registry). -/
structure CallOut (α : Type) where
  result : ResilienceResult α
  invocs : Nat
  loopIterations : Nat
  breaker : BreakerState
deriving Repr

/-- `resilient_call` from `src/services/resilience.py` (lines 302-469).
`b0` is the breaker registered for `config.name` at entry; `cache = none`
models `cache_get`/`cache_key` not both configured, and `some r` models a
configured lookup whose outcome is `r` (the same outcome is observed by
the open-circuit lookup and the post-failure lookup; `Except.error`
models the lookup raising).  `cache_set` is best-effort and observable
only through the cache, so it is not tracked.
With `reraise=True` exhaustion re-raises the last exception itself, so the
`except RetryError` arm is unreachable and failures land either in the
`except pybreaker.CircuitBreakerError` arm (which records circuit OPEN and
a fixed message, and leaves `attempts` at its initial value 1) or in the
generic `except Exception` arm (which records the message, its category,
and the attempt count). -/
def resilient_call (op : Nat → Except PyError α) (config : ServiceConfigM)
    (b0 : BreakerState) (fallback : Option (Fallback α))
    (cache : Option (Except PyError (Option α))) : CallOut α :=
  let base : ResilienceResult α := { success := false
                                     value := none
                                     error := none
                                     error_category := none
                                     attempts := 1
                                     from_cache := false
                                     from_fallback := false
                                     circuit_state := stateOf b0 }
  match b0 with
  | .opened =>
    -- Check circuit breaker first: try cache when circuit is open, else fallback.
    let r := { base with circuit_state := CircuitState.OPEN }
    match cache with
    | some (.ok (some v)) =>
      ⟨{ r with success := true, value := some v, from_cache := true }, 0, 0, b0⟩
    | _ => ⟨applyFallback r fallback, 0, 0, b0⟩
  | .closed _ =>
    let out := retryGo op config.circuit_fail_max (config.retry_attempts - 1) b0 0 0
    match out.res with
    | .ok v =>
      let r := { base with
        success := true
        value := some v
        attempts := out.attempts
        circuit_state := stateOf out.breaker }
      ⟨r, out.invocs, out.attempts, out.breaker⟩
    | .error err =>
      let r1 :=
        match err with
        | .circuitOpen => { base with
            circuit_state := CircuitState.OPEN
            error := some "Service temporarily unavailable"
            error_category := some ErrorCategory.TRANSIENT }
        | .exc e => { base with
            error := some e.msg
            error_category := some (categorize_error e)
            attempts := out.attempts }
      match cache with
      | some (.ok (some v)) =>
        let r2 := { r1 with success := true, value := some v, from_cache := true }
        ⟨r2, out.invocs, out.attempts, out.breaker⟩
      | _ => ⟨applyFallback r1 fallback, out.invocs, out.attempts, out.breaker⟩

end Resilience

namespace Cache

/-- A JSON document, as produced by `json.dumps`/`json.loads`.  Numeric
values are modelled as integers (the session fields serialized by the code
are ints, strings, lists and string-keyed dicts); object fields keep
insertion order, as Python dicts and `json` do. -/
inductive JVal where
  | null
  | bool (b : Bool)
  | num (n : Int)
  | str (s : String)
  | arr (elems : List JVal)
  | obj (fields : List (String × JVal))
deriving BEq, Repr

/-- One entry of `ConversationSession.messages` as written by
`add_message`: a role/content/timestamp triple. -/
structure Message where
  role : String
  content : String
  timestamp : String
deriving DecidableEq, Repr

/-- `ConversationSession` from `src/cache/session.py` (lines 25-49).
`style_profile` and `wardrobe` hold arbitrary JSON-serializable data
(`dict[str, Any]` / `list[dict[str, Any]]`), modelled as JSON documents.
The source defaults `created_at`/`updated_at` to the current time; time
stamps are opaque strings here. -/
structure ConversationSession where
  telegram_id : Int
  messages : List Message
  first_name : Option String
  username : Option String
  location : Option String
  fitness_goals : List String
  preferred_workout_types : List String
  style_profile : List (String × JVal)
  wardrobe : List JVal
  conversation_summary : Option String
  created_at : String
  updated_at : String
  message_count : Int
deriving Repr

/-- A freshly constructed session for a user id (all defaults; `now` is
the construction time stamp). -/
def ConversationSession.fresh (telegram_id : Int) (now : String) :
    ConversationSession :=
  ⟨telegram_id, [], none, none, none, [], [], [], [], none, now, now, 0⟩

/-- `ConversationSession.add_message` (lines 51-63): append the message,
bump `message_count`, stamp `updated_at`, then keep only the last 20
messages (`self.messages[-20:]`). -/
def ConversationSession.add_message (s : ConversationSession)
    (role content now : String) : ConversationSession :=
  let msgs := s.messages ++ [⟨role, content, now⟩]
  let msgs := if 20 < msgs.length then msgs.drop (msgs.length - 20) else msgs
  { s with
    messages := msgs
    message_count := s.message_count + 1
    updated_at := now }

/-- A sequence of `add_message` calls (role, content, time stamp). -/
def ConversationSession.add_messages (s : ConversationSession)
    (calls : List (String × String × String)) : ConversationSession :=
  calls.foldl (fun s c => s.add_message c.1 c.2.1 c.2.2) s

/-- Dict lookup on a JSON object's fields. -/
def jGet (fields : List (String × JVal)) (k : String) : Option JVal :=
  (fields.find? (fun p => p.1 == k)).map (fun p => p.2)

/-- `asdict` on one stored message. -/
def msgToJson (m : Message) : JVal :=
  .obj [("role", .str m.role), ("content", .str m.content),
        ("timestamp", .str m.timestamp)]

/-- An optional string field, as `asdict`/JSON represent it. -/
def optStrToJson : Option String → JVal
  | none => .null
  | some s => .str s

/-- `ConversationSession.to_json` (lines 81-83): the JSON document
`json.dumps(asdict(self))` serializes, with fields in dataclass order. -/
def ConversationSession.to_json (s : ConversationSession) : JVal :=
  .obj [("telegram_id", .num s.telegram_id),
        ("messages", .arr (s.messages.map msgToJson)),
        ("first_name", optStrToJson s.first_name),
        ("username", optStrToJson s.username),
        ("location", optStrToJson s.location),
        ("fitness_goals", .arr (s.fitness_goals.map JVal.str)),
        ("preferred_workout_types", .arr (s.preferred_workout_types.map JVal.str)),
        ("style_profile", .obj s.style_profile),
        ("wardrobe", .arr s.wardrobe),
        ("conversation_summary", optStrToJson s.conversation_summary),
        ("created_at", .str s.created_at),
        ("updated_at", .str s.updated_at),
        ("message_count", .num s.message_count)]

/-- Parse one stored message back from its JSON form. -/
def msgFromJson : JVal → Option Message
  | .obj [("role", .str r), ("content", .str c), ("timestamp", .str t)] =>
    some ⟨r, c, t⟩
  | _ => none

def jAsInt : JVal → Option Int
  | .num n => some n
  | _ => none

def jAsStr : JVal → Option String
  | .str s => some s
  | _ => none

def jAsOptStr : JVal → Option (Option String)
  | .null => some none
  | .str s => some (some s)
  | _ => none

/-- Parse every element of a list, failing if any element fails
(`[parse(x) for x in xs]` with failure propagation). -/
def mapMOpt (f : α → Option β) : List α → Option (List β)
  | [] => some []
  | x :: xs => do
    let y ← f x
    let ys ← mapMOpt f xs
    some (y :: ys)

def jAsStrList : JVal → Option (List String)
  | .arr xs => mapMOpt jAsStr xs
  | _ => none

def jAsMsgList : JVal → Option (List Message)
  | .arr xs => mapMOpt msgFromJson xs
  | _ => none

def jAsObj : JVal → Option (List (String × JVal))
  | .obj fs => some fs
  | _ => none

def jAsArr : JVal → Option (List JVal)
  | .arr xs => some xs
  | _ => none

/-- The dataclass field names of `ConversationSession`; `cls(**parsed)`
raises `TypeError` on any other key. -/
def sessionFieldNames : List String :=
  ["telegram_id", "messages", "first_name", "username", "location",
   "fitness_goals", "preferred_workout_types", "style_profile", "wardrobe",
   "conversation_summary", "created_at", "updated_at", "message_count"]

/-- A field of the parsed dict: absent means the dataclass default `dflt`
is used; a present field must have the modelled shape. -/
def jField (fields : List (String × JVal)) (k : String)
    (parse : JVal → Option β) (dflt : β) : Option β :=
  match jGet fields k with
  | none => some dflt
  | some v => parse v

/-- `ConversationSession.from_json` (lines 85-89):
`cls(**json.loads(data))`.  A non-object document, an unknown key, or a
missing `telegram_id` (the one field without a default) is a
`TypeError`/`JSONDecodeError`, modelled as `none`.  The source defaults
`created_at`/`updated_at` to the current construction time; the model
leaves the default time stamp abstract as `""`. -/
def ConversationSession.from_json (j : JVal) : Option ConversationSession :=
  match j with
  | .obj fields =>
    if fields.all (fun p => sessionFieldNames.contains p.1) then do
      let tidJ ← jGet fields "telegram_id"
      let telegram_id ← jAsInt tidJ
      let messages ← jField fields "messages" jAsMsgList []
      let first_name ← jField fields "first_name" jAsOptStr none
      let username ← jField fields "username" jAsOptStr none
      let location ← jField fields "location" jAsOptStr none
      let fitness_goals ← jField fields "fitness_goals" jAsStrList []
      let preferred_workout_types ← jField fields "preferred_workout_types" jAsStrList []
      let style_profile ← jField fields "style_profile" jAsObj []
      let wardrobe ← jField fields "wardrobe" jAsArr []
      let conversation_summary ← jField fields "conversation_summary" jAsOptStr none
      let created_at ← jField fields "created_at" jAsStr ""
      let updated_at ← jField fields "updated_at" jAsStr ""
      let message_count ← jField fields "message_count" jAsInt 0
      some ⟨telegram_id, messages, first_name, username, location,
            fitness_goals, preferred_workout_types, style_profile, wardrobe,
            conversation_summary, created_at, updated_at, message_count⟩
    else none
  | _ => none

/-- The backend operations `check_rate_limit` uses, over an abstract store
state `σ` (the `CacheClient` protocol of `src/cache/redis.py`, restricted
to the two operations the method calls).  `incr` returning `none` models
the backend raising/failing. -/
structure Backend (σ : Type) where
  incr : σ → String → Option Int × σ
  expire : σ → String → Int → Bool × σ

/-- `SessionManager.check_rate_limit` (lines 187-223): increment the
user's counter; a failed increment fails open (`(true, 0)`); the first
count in a window sets the key's expiry; `allowed = count <= max_requests`. -/
def check_rate_limit (be : Backend σ) (s : σ) (rateKey : String)
    (max_requests : Int) (window_seconds : Int) : (Bool × Int) × σ :=
  match be.incr s rateKey with
  | (none, s1) => ((true, 0), s1)
  | (some count, s1) =>
    let s2 := if count = 1 then (be.expire s1 rateKey window_seconds).2 else s1
    ((decide (count ≤ max_requests), count), s2)

/-- `CacheEntry` from `src/cache/redis.py` (lines 33-42); time is in
integer ticks (the source uses `time.time()` floats). -/
structure CacheEntry where
  value : String
  expires_at : Option Int
deriving DecidableEq, Repr

/-- `CacheEntry.is_expired` at time `now`: `time.time() > expires_at`. -/
def CacheEntry.is_expired (e : CacheEntry) (now : Int) : Bool :=
  match e.expires_at with
  | none => false
  | some t => t < now

/-- Association-list update with Python-dict semantics: an existing key
keeps its position, a new key is appended. -/
def setA (l : List (String × β)) (k : String) (v : β) : List (String × β) :=
  if (l.find? (fun p => p.1 == k)).isSome then
    l.map (fun p => if p.1 == k then (k, v) else p)
  else l ++ [(k, v)]

/-- Association-list lookup. -/
def getA (l : List (String × β)) (k : String) : Option β :=
  (l.find? (fun p => p.1 == k)).map (fun p => p.2)

/-- Association-list removal (`del d[k]`). -/
def delA (l : List (String × β)) (k : String) : List (String × β) :=
  l.filter (fun p => p.1 != k)

/-- `MemoryCache` from `src/cache/redis.py` (lines 45-137): an expiring
key/value table `data` and a separate counter table `counters`. -/
structure MemoryCache where
  data : List (String × CacheEntry)
  counters : List (String × Int)
deriving Repr

/-- `MemoryCache.get` at time `now`: evict-on-read when expired. -/
def MemoryCache.get (c : MemoryCache) (key : String) (now : Int) :
    Option String × MemoryCache :=
  match getA c.data key with
  | none => (none, c)
  | some e =>
    if e.is_expired now then (none, { c with data := delA c.data key })
    else (some e.value, c)

/-- `MemoryCache.incr` (lines 96-100): bump the counter table; neither
the expiring table nor the clock is consulted. -/
def MemoryCache.incr (c : MemoryCache) (key : String) : Int × MemoryCache :=
  let n := (getA c.counters key).getD 0 + 1
  (n, { c with counters := setA c.counters key n })

/-- `MemoryCache.expire` (lines 102-116): set the expiry of a data entry;
for a counter-only key, snapshot the current count into the expiring
table (`str(count)`); otherwise report `false`. -/
def MemoryCache.expire (c : MemoryCache) (key : String) (ttl : Int)
    (now : Int) : Bool × MemoryCache :=
  match getA c.data key with
  | some e =>
    (true, { c with data := setA c.data key { e with expires_at := some (now + ttl) } })
  | none =>
    match getA c.counters key with
    | some n =>
      (true, { c with data := setA c.data key ⟨toString n, some (now + ttl)⟩ })
    | none => (false, c)

/-- `MemoryCache.delete` (lines 76-83): drop the key from both tables. -/
def MemoryCache.delete (c : MemoryCache) (key : String) :
    Bool × MemoryCache :=
  (true, ⟨delA c.data key, delA c.counters key⟩)

/-- The `MemoryCache` backend as `check_rate_limit` sees it through the
`CacheClient` protocol (its `incr` never fails). -/
def memBackend (now : Int) : Backend MemoryCache :=
  ⟨fun c k => let r := c.incr k; (some r.1, r.2),
   fun c k ttl => c.expire k ttl now⟩

end Cache

namespace Fallbacks

/-- `FallbackType` from `src/agent/fallbacks.py` (lines 22-60). -/
inductive FallbackType where
  | VISION_UNAVAILABLE
  | VISION_RATE_LIMITED
  | PHOTO_DOWNLOAD_FAILED
  | PHOTO_TOO_LARGE
  | PHOTO_INVALID_FORMAT
  | PLACES_UNAVAILABLE
  | PLACES_RATE_LIMITED
  | PLACES_NO_RESULTS
  | LOCATION_REQUIRED
  | FLIGHTS_UNAVAILABLE
  | HOTELS_UNAVAILABLE
  | TRAVEL_NOT_CONFIGURED
  | SESSION_UNAVAILABLE
  | CACHE_UNAVAILABLE
  | FEATURE_DISABLED
  | API_KEY_MISSING
  | API_KEY_INVALID
  | UNKNOWN_ERROR
  | TIMEOUT
  | RATE_LIMITED
  | SERVICE_OVERLOADED
  | TOOL_EXECUTION_FAILED
  | TOOL_NOT_FOUND
deriving DecidableEq, Repr, Fintype

/-- The user-facing `ErrorCategory` from `src/agent/fallbacks.py`
(coarser than the resilience-layer one). -/
inductive FBCategory where
  | TRANSIENT
  | PERMANENT
  | RESOURCE
deriving DecidableEq, Repr

/-- `FallbackResponse` from `src/agent/fallbacks.py` (lines 71-79). -/
structure FallbackResponse where
  message : String
  category : FBCategory
  suggest_retry : Bool
  alternative_action : Option String
  retry_after_seconds : Option Int
deriving DecidableEq, Repr

/-- The `FALLBACKS` dict from `src/agent/fallbacks.py` (lines 83-293),
as an insertion-ordered association list; message strings are verbatim
(the source builds them by adjacent-literal concatenation). -/
def FALLBACKS : List (FallbackType × FallbackResponse) :=
  [(.VISION_UNAVAILABLE,
    ⟨"I can't analyze photos right now. Try describing your outfit in text and I'll help with style advice!",
     .TRANSIENT, true, some "Describe your outfit: colors, items, occasion", none⟩),
   (.VISION_RATE_LIMITED,
    ⟨"I've been looking at a lot of photos! Give me a minute to rest my eyes, then send your photo again.",
     .RESOURCE, true, none, some 60⟩),
   (.PHOTO_DOWNLOAD_FAILED,
    ⟨"I had trouble downloading your photo. Could you try sending it again? Make sure it's not too large (under 10MB works best).",
     .TRANSIENT, true, none, none⟩),
   (.PHOTO_TOO_LARGE,
    ⟨"That photo is a bit too large for me to process. Could you resize it or send a smaller version? Under 10MB works best.",
     .PERMANENT, false, some "Resize the image or use a lower quality setting", none⟩),
   (.PHOTO_INVALID_FORMAT,
    ⟨"I couldn't read that image format. Could you try sending it as a JPEG or PNG?",
     .PERMANENT, false, some "Convert to JPEG or PNG format", none⟩),
   (.PLACES_UNAVAILABLE,
    ⟨"I'm having trouble searching for places right now. In the meantime, try searching on Google Maps - it has great fitness studio listings!",
     .TRANSIENT, true, some "Search on Google Maps", none⟩),
   (.PLACES_RATE_LIMITED,
    ⟨"I've done a lot of searching recently. Give me a moment, then I'll be ready to find studios for you again.",
     .RESOURCE, true, none, some 30⟩),
   (.PLACES_NO_RESULTS,
    ⟨"I couldn't find any fitness studios matching that search. Try being more specific about the type (yoga, pilates, gym) or location.",
     .PERMANENT, false, some "Try a different search term or expand the area", none⟩),
   (.LOCATION_REQUIRED,
    ⟨"To find fitness studios near you, I need to know your location. You can tell me your city or area, like 'yoga studios in Brooklyn'.",
     .PERMANENT, false, some "Share your location or specify a city", none⟩),
   (.FLIGHTS_UNAVAILABLE,
    ⟨"I can't search flights right now. Try checking Skyscanner or Google Flights - they often have the same deals I'd find!",
     .TRANSIENT, true, some "Visit skyscanner.com or flights.google.com", none⟩),
   (.HOTELS_UNAVAILABLE,
    ⟨"I'm having trouble searching hotels. Booking.com or Hotels.com are great alternatives to check in the meantime!",
     .TRANSIENT, true, some "Visit booking.com or hotels.com", none⟩),
   (.TRAVEL_NOT_CONFIGURED,
    ⟨"Travel planning isn't set up on this bot yet. I can still help with style, fitness, and wellness advice though!",
     .PERMANENT, false, some "Ask about style advice or fitness instead", none⟩),
   (.SESSION_UNAVAILABLE,
    ⟨"Note: I might forget our conversation if I restart. But I'm still here to help! What would you like to know?",
     .TRANSIENT, false, none, none⟩),
   (.CACHE_UNAVAILABLE,
    ⟨"", .TRANSIENT, false, none, none⟩),
   (.FEATURE_DISABLED,
    ⟨"That feature isn't available on this bot. But I can still help with style advice, outfit analysis, and color season discovery!",
     .PERMANENT, false, some "Try asking about style or outfit advice", none⟩),
   (.API_KEY_MISSING,
    ⟨"I'm not fully set up to do that yet. In the meantime, let me know what else I can help with!",
     .PERMANENT, false, none, none⟩),
   (.API_KEY_INVALID,
    ⟨"I'm having some technical difficulties. The bot administrator has been notified. Is there something else I can help with?",
     .PERMANENT, false, none, none⟩),
   (.UNKNOWN_ERROR,
    ⟨"Something unexpected happened. Let's try a different approach - what are you trying to do? I'll find another way to help.",
     .TRANSIENT, true, some "Describe what you'd like to accomplish", none⟩),
   (.TIMEOUT,
    ⟨"That took longer than expected. Could you try again? If it keeps happening, try a simpler request.",
     .TRANSIENT, true, none, none⟩),
   (.RATE_LIMITED,
    ⟨"I'm getting a lot of requests right now! Give me a minute and then try again.",
     .RESOURCE, true, none, some 60⟩),
   (.SERVICE_OVERLOADED,
    ⟨"I'm a bit overwhelmed right now. Try again in a few minutes - I'll be ready to help!",
     .TRANSIENT, true, none, some 120⟩),
   (.TOOL_EXECUTION_FAILED,
    ⟨"I ran into a problem trying to do that. Let me try a different approach - could you tell me more about what you need?",
     .TRANSIENT, true, none, none⟩),
   (.TOOL_NOT_FOUND,
    ⟨"I'm not sure how to do that specific thing, but I might be able to help another way. What are you trying to accomplish?",
     .PERMANENT, false, none, none⟩)]

/-- `FALLBACKS.get(t)`: dict lookup on the catalog. -/
def fallbackFor (t : FallbackType) : Option FallbackResponse :=
  (FALLBACKS.find? (fun p => p.1 == t)).map (fun p => p.2)

/-- `get_fallback` from `src/agent/fallbacks.py` (lines 296-331): look up
the catalog entry (defaulting to the `UNKNOWN_ERROR` entry when the tag is
absent; the final `""` arm models the `KeyError` that would follow if even
that entry were missing, which the completeness theorem rules out) and
return only the message string (logging is not modelled). -/
def get_fallback (t : FallbackType) : String :=
  match fallbackFor t with
  | some fb => fb.message
  | none =>
    match fallbackFor FallbackType.UNKNOWN_ERROR with
    | some fb => fb.message
    | none => ""

end Fallbacks

/-! ## Retry-loop characterization lemmas -/

namespace Resilience

/-- From an open breaker the loop just burns its attempts: every iteration
is rejected without invoking the operation. -/
theorem retryGo_opened (op : Nat → Except PyError α) (failMax : Nat) :
    ∀ (fuel invocs attempts : Nat),
      retryGo op failMax fuel .opened invocs attempts =
        ⟨.error .circuitOpen, .opened, invocs, attempts + fuel + 1⟩ := by
  intro fuel
  induction fuel with
  | zero => intro invocs attempts; rfl
  | succ n ih =>
    intro invocs attempts
    show retryGo op failMax (n + 1) .opened invocs attempts = _
    rw [retryGo]
    simp only [attemptOnce]
    rw [ih]
    congr 1
    omega

/-- An operation whose next invocation succeeds ends the loop at once. -/
theorem retryGo_ok (op : Nat → Except PyError α) (failMax : Nat) (v : α)
    (fuel c invocs attempts : Nat) (h : op invocs = .ok v) :
    retryGo op failMax fuel (.closed c) invocs attempts =
      ⟨.ok v, .closed 0, invocs + 1, attempts + 1⟩ := by
  cases fuel with
  | zero => rw [retryGo]; simp [attemptOnce, h]
  | succ n => rw [retryGo]; simp [attemptOnce, h]

/-- An always-failing run that stays below the breaker threshold: every
attempt invokes the operation and re-raises its error; the loop ends by
re-raising the last error. -/
theorem retryGo_allFail_noTrip {α : Type} (f : Nat → PyError) (failMax : Nat) :
    ∀ (fuel c invocs attempts : Nat), c + fuel + 1 < failMax →
      retryGo (α := α) (fun i => .error (f i)) failMax fuel (.closed c) invocs attempts =
        ⟨.error (.exc (f (invocs + fuel))), .closed (c + fuel + 1),
          invocs + fuel + 1, attempts + fuel + 1⟩ := by
  intro fuel
  induction fuel with
  | zero =>
    intro c invocs attempts h
    rw [retryGo]
    simp only [attemptOnce]
    have : ¬ failMax ≤ c + 1 := by omega
    simp [this]
  | succ n ih =>
    intro c invocs attempts h
    rw [retryGo]
    simp only [attemptOnce]
    have : ¬ failMax ≤ c + 1 := by omega
    simp only [this, if_false]
    rw [ih (c + 1) (invocs + 1) (attempts + 1) (by omega)]
    have e1 : invocs + 1 + n = invocs + (n + 1) := by omega
    have e2 : c + 1 + n + 1 = c + (n + 1) + 1 := by omega
    have e4 : attempts + 1 + n + 1 = attempts + (n + 1) + 1 := by omega
    rw [e1, e2, e4]

/-- An always-failing run that reaches the breaker threshold: the breaker
opens after `failMax - c` invocations, the remaining iterations are
rejected without invoking the operation, and the loop ends by re-raising
`CircuitBreakerError`. -/
theorem retryGo_allFail_trip {α : Type} (f : Nat → PyError) (failMax : Nat) :
    ∀ (fuel c invocs attempts : Nat), c < failMax → failMax ≤ c + fuel + 1 →
      retryGo (α := α) (fun i => .error (f i)) failMax fuel (.closed c) invocs attempts =
        ⟨.error .circuitOpen, .opened, invocs + (failMax - c),
          attempts + fuel + 1⟩ := by
  intro fuel
  induction fuel with
  | zero =>
    intro c invocs attempts hc h
    rw [retryGo]
    simp only [attemptOnce]
    have : failMax ≤ c + 1 := by omega
    simp only [this, if_true]
    have : failMax - c = 1 := by omega
    simp [this]
  | succ n ih =>
    intro c invocs attempts hc h
    rw [retryGo]
    simp only [attemptOnce]
    by_cases htrip : failMax ≤ c + 1
    · simp only [htrip, if_true]
      rw [retryGo_opened]
      have e0 : failMax - c = 1 := by omega
      have e1 : attempts + 1 + n + 1 = attempts + (n + 1) + 1 := by omega
      rw [e0, e1]
    · simp only [htrip, if_false]
      rw [ih (c + 1) (invocs + 1) (attempts + 1) (by omega) (by omega)]
      have e1 : invocs + 1 + (failMax - (c + 1)) = invocs + (failMax - c) := by omega
      have e2 : attempts + 1 + n + 1 = attempts + (n + 1) + 1 := by omega
      rw [e1, e2]

/-- An always-failing run always ends in an exception (the original error
or `CircuitBreakerError`), never a value. -/
theorem retryGo_allFail_isError {α : Type} (f : Nat → PyError) (failMax : Nat) :
    ∀ (fuel : Nat) (b : BreakerState) (invocs attempts : Nat),
      ∃ err, (retryGo (α := α) (fun i => .error (f i)) failMax fuel b invocs attempts).res =
        .error err := by
  intro fuel
  induction fuel with
  | zero =>
    intro b invocs attempts
    cases b with
    | opened => exact ⟨.circuitOpen, rfl⟩
    | closed c =>
      rw [retryGo]
      simp only [attemptOnce]
      by_cases h : failMax ≤ c + 1 <;> simp [h]
  | succ n ih =>
    intro b invocs attempts
    cases b with
    | opened =>
      rw [retryGo]
      simp only [attemptOnce]
      exact ih .opened invocs (attempts + 1)
    | closed c =>
      rw [retryGo]
      simp only [attemptOnce]
      by_cases h : failMax ≤ c + 1 <;> simp only [h, if_true, if_false]
      · exact ih .opened (invocs + 1) (attempts + 1)
      · exact ih (.closed (c + 1)) (invocs + 1) (attempts + 1)

end Resilience

/-! ## Claim theorems -/

open Resilience Cache Fallbacks

/-- C1, counterexample: a `resilient_call` whose operation fails on its
(only) attempt and which carries a static fallback returns a
fallback-derived success whose `error` and `error_category` fields still
hold the recorded failure — they are NOT cleared, contrary to the claim. -/
theorem C1_counterexample :
    (resilient_call (α := String) (fun _ => .error ⟨"boom", "Exception"⟩)
        ⟨1, 5⟩ (.closed 0) (some (.value "fb")) none).result =
      ⟨true, some "fb", some "boom", some .UNKNOWN, 1, false, true, .CLOSED⟩ := by
  decide

/-- C1, amended: for every `resilient_call` whose operation fails on all
attempts and which has a static fallback value, the result has
`success = true`, `from_fallback = true`, the fallback as its value and
`from_cache = false`, but `error` and `error_category` retain the recorded
failure instead of being cleared. -/
theorem C1_fallback_success_keeps_error {α : Type} (f : Nat → PyError)
    (config : ServiceConfigM) (c : Nat) (v : α) :
    ∃ (msg : String) (cat : ErrorCategory) (n : Nat) (st : CircuitState),
      (resilient_call (fun i => .error (f i)) config (.closed c)
          (some (.value v)) none).result =
        ⟨true, some v, some msg, some cat, n, false, true, st⟩ := by
  obtain ⟨err, herr⟩ := retryGo_allFail_isError (α := α) f
    config.circuit_fail_max (config.retry_attempts - 1) (.closed c) 0 0
  cases err with
  | circuitOpen =>
    refine ⟨"Service temporarily unavailable", .TRANSIENT, 1, .OPEN, ?_⟩
    simp only [resilient_call]
    rw [herr]
    simp [applyFallback]
  | exc e =>
    refine ⟨e.msg, categorize_error e,
      (retryGo (α := α) (fun i => .error (f i)) config.circuit_fail_max
        (config.retry_attempts - 1) (.closed c) 0 0).attempts, .CLOSED, ?_⟩
    simp only [resilient_call]
    rw [herr]
    simp [applyFallback, stateOf]

/-- C2, counterexample: with `circuit_fail_max = 1` and
`retry_attempts = 4`, the operation's first failure opens the breaker, yet
the retry loop does not abort: it runs all 4 iterations (the last three
rejected by the open breaker without invoking the operation), so the
claim's "aborts immediately" is false — only 2 iterations would occur if
the loop stopped at the first breaker rejection. -/
theorem C2_counterexample :
    (resilient_call (α := String) (fun _ => .error ⟨"boom", "Exception"⟩)
        ⟨4, 1⟩ (.closed 0) none none).loopIterations = 4
  ∧ (resilient_call (α := String) (fun _ => .error ⟨"boom", "Exception"⟩)
        ⟨4, 1⟩ (.closed 0) none none).invocs = 1
  ∧ (resilient_call (α := String) (fun _ => .error ⟨"boom", "Exception"⟩)
        ⟨4, 1⟩ (.closed 0) none none).result.circuit_state = .OPEN := by
  refine ⟨by decide, by decide, by decide⟩

/-- C2, amended: when the breaker opens mid-loop (circuit initially closed
with `c` recorded failures, an always-failing operation, and more retry
attempts than the breaker allows failures), the operation is invoked only
`circuit_fail_max - c` times — never on a rejected attempt — but the loop
still consumes all `retry_attempts` iterations, and the returned result
records circuit state OPEN. -/
theorem C2_breaker_rejection {α : Type} (f : Nat → PyError)
    (N failMax c : Nat) (hc : c < failMax) (hN : failMax - c < N) :
    resilient_call (α := α) (fun i => .error (f i)) ⟨N, failMax⟩
        (.closed c) none none =
      ⟨⟨false, none, some "Service temporarily unavailable", some .TRANSIENT,
          1, false, false, .OPEN⟩, failMax - c, N, .opened⟩ := by
  have h := retryGo_allFail_trip (α := α) f failMax (N - 1) c 0 0 hc (by omega)
  simp only [resilient_call]
  rw [h]
  simp only [applyFallback]
  have e1 : 0 + (failMax - c) = failMax - c := by omega
  have e2 : 0 + (N - 1) + 1 = N := by omega
  rw [e1, e2]

/-- C2, witness. -/
theorem C2_breaker_rejection_witness :
    resilient_call (α := String) (fun _ => .error ⟨"boom", "Exception"⟩)
        ⟨4, 1⟩ (.closed 0) none none =
      ⟨⟨false, none, some "Service temporarily unavailable", some .TRANSIENT,
          1, false, false, .OPEN⟩, 1, 4, .opened⟩ :=
  C2_breaker_rejection (fun _ => ⟨"boom", "Exception"⟩) 4 1 0
    (by decide) (by decide)

/-- C3, counterexample: with the default `circuit_fail_max = 5` and
`retry_attempts = 6`, an operation that raises a retryable (transient)
exception on every invocation is invoked only 5 times, not 6: the fifth
failure opens the breaker and the sixth attempt is rejected without an
invocation. -/
theorem C3_counterexample :
    (resilient_call (α := String)
        (fun _ => .error ⟨"Connection timeout", "Exception"⟩)
        ⟨6, 5⟩ (.closed 0) none none).invocs = 5
  ∧ (resilient_call (α := String)
        (fun _ => .error ⟨"Connection timeout", "Exception"⟩)
        ⟨6, 5⟩ (.closed 0) none none).result.success = false := by
  refine ⟨by decide, by decide⟩

/-- C3, amended: with a fresh (closed, zero-failure) breaker and no cache,
an always-failing operation is invoked `min N circuit_fail_max` times —
exactly `N` whenever `N ≤ circuit_fail_max` — and the result is a failure;
and an operation that fails once then succeeds (with `N ≥ 2` and breaker
headroom `circuit_fail_max ≥ 2`) yields a success with `attempts = 2`. -/
theorem C3_retry_counts {α : Type} :
    (∀ (f : Nat → PyError) (N failMax : Nat), 1 ≤ N → 1 ≤ failMax →
      (resilient_call (α := α) (fun i => .error (f i)) ⟨N, failMax⟩
          (.closed 0) none none).invocs = min N failMax
      ∧ (resilient_call (α := α) (fun i => .error (f i)) ⟨N, failMax⟩
          (.closed 0) none none).result.success = false
      ∧ (resilient_call (α := α) (fun i => .error (f i)) ⟨N, failMax⟩
          (.closed 0) none none).result.value = none)
  ∧ (∀ (e : PyError) (v : α) (N failMax : Nat), 2 ≤ N → 2 ≤ failMax →
      (resilient_call (fun i => if i = 0 then .error e else .ok v)
          ⟨N, failMax⟩ (.closed 0) none none).result.success = true
      ∧ (resilient_call (fun i => if i = 0 then .error e else .ok v)
          ⟨N, failMax⟩ (.closed 0) none none).result.attempts = 2
      ∧ (resilient_call (fun i => if i = 0 then .error e else .ok v)
          ⟨N, failMax⟩ (.closed 0) none none).result.value = some v) := by
  constructor
  · intro f N failMax hN hF
    rcases Nat.lt_or_ge N failMax with hlt | hge
    · have h := retryGo_allFail_noTrip (α := α) f failMax (N - 1) 0 0 0 (by omega)
      have hmin : min N failMax = N := by omega
      simp only [resilient_call]
      rw [h]
      simp [applyFallback, hmin]
      omega
    · have h := retryGo_allFail_trip (α := α) f failMax (N - 1) 0 0 0
        (by omega) (by omega)
      have hmin : min N failMax = failMax := by omega
      simp only [resilient_call]
      rw [h]
      simp [applyFallback, hmin]
  · intro e v N failMax hN hF
    obtain ⟨k, hk⟩ : ∃ k, N - 1 = k + 1 := ⟨N - 2, by omega⟩
    have h1 : ¬ failMax ≤ 0 + 1 := by omega
    have hop1 : (fun i => if i = 0 then Except.error (α := α) e else .ok v) 1
        = .ok v := by simp
    have hstep : attemptOnce (fun i => if i = 0 then Except.error (α := α) e else .ok v)
        failMax (.closed 0) 0 = (.error (.exc e), .closed 1, 1) := by
      simp [attemptOnce, h1]
    have hdone := retryGo_ok (fun i => if i = 0 then Except.error (α := α) e else .ok v)
      failMax v k 1 1 1 hop1
    have hloop : retryGo (fun i => if i = 0 then Except.error (α := α) e else .ok v)
        failMax (N - 1) (.closed 0) 0 0 = ⟨.ok v, .closed 0, 2, 2⟩ := by
      rw [hk, retryGo, hstep]
      exact hdone
    simp only [resilient_call]
    rw [hloop]
    exact ⟨rfl, rfl, rfl⟩

/-- C3, witness. -/
theorem C3_retry_counts_witness :
    ((resilient_call (α := String)
        (fun _ => .error ⟨"Connection timeout", "Exception"⟩)
        ⟨3, 5⟩ (.closed 0) none none).invocs = min 3 5
    ∧ (resilient_call (α := String)
        (fun _ => .error ⟨"Connection timeout", "Exception"⟩)
        ⟨3, 5⟩ (.closed 0) none none).result.success = false
    ∧ (resilient_call (α := String)
        (fun _ => .error ⟨"Connection timeout", "Exception"⟩)
        ⟨3, 5⟩ (.closed 0) none none).result.value = none)
  ∧ ((resilient_call (α := String)
        (fun i => if i = 0 then .error ⟨"Connection timeout", "Exception"⟩ else .ok "ok")
        ⟨3, 5⟩ (.closed 0) none none).result.success = true
    ∧ (resilient_call (α := String)
        (fun i => if i = 0 then .error ⟨"Connection timeout", "Exception"⟩ else .ok "ok")
        ⟨3, 5⟩ (.closed 0) none none).result.attempts = 2
    ∧ (resilient_call (α := String)
        (fun i => if i = 0 then .error ⟨"Connection timeout", "Exception"⟩ else .ok "ok")
        ⟨3, 5⟩ (.closed 0) none none).result.value = some "ok") :=
  ⟨C3_retry_counts.1 (fun _ => ⟨"Connection timeout", "Exception"⟩) 3 5
      (by decide) (by decide),
   C3_retry_counts.2 ⟨"Connection timeout", "Exception"⟩ "ok" 3 5
      (by decide) (by decide)⟩

/-- C4: while the breaker for the service is OPEN (and its reset timeout
has not elapsed), `resilient_call` never invokes the operation; a
configured cache lookup returning a non-null value yields a cache-derived
success, and otherwise the fallback (if any) is applied to the
open-circuit base result and returned; the result records circuit state
OPEN either way. -/
theorem C4_open_circuit {α : Type} (op : Nat → Except PyError α)
    (config : ServiceConfigM) (fb : Option (Fallback α))
    (cache : Option (Except PyError (Option α))) :
    (resilient_call op config .opened fb cache).invocs = 0
  ∧ (∀ v, cache = some (.ok (some v)) →
      (resilient_call op config .opened fb cache).result =
        ⟨true, some v, none, none, 1, true, false, .OPEN⟩)
  ∧ ((∀ v, cache ≠ some (.ok (some v))) →
      (resilient_call op config .opened fb cache).result =
        applyFallback ⟨false, none, none, none, 1, false, false, .OPEN⟩ fb)
  ∧ (resilient_call op config .opened fb cache).result.circuit_state
      = .OPEN := by
  have hfbst : ∀ (r : ResilienceResult α),
      (applyFallback r fb).circuit_state = r.circuit_state := by
    intro r
    cases fb with
    | none => rfl
    | some f =>
      cases f with
      | value v => rfl
      | producer p => cases p with
        | ok v => rfl
        | error e => rfl
  refine ⟨?_, ?_, ?_, ?_⟩
  · cases cache with
    | none => rfl
    | some r =>
      cases r with
      | error e => rfl
      | ok o =>
        cases o with
        | none => rfl
        | some v => rfl
  · intro v hv
    subst hv
    rfl
  · intro hmiss
    cases cache with
    | none => rfl
    | some r =>
      cases r with
      | error e => rfl
      | ok o =>
        cases o with
        | none => rfl
        | some v => exact absurd rfl (hmiss v)
  · cases cache with
    | none =>
      show (applyFallback ⟨false, none, none, none, 1, false, false,
        CircuitState.OPEN⟩ fb).circuit_state = CircuitState.OPEN
      rw [hfbst]
    | some r =>
      cases r with
      | error e =>
        show (applyFallback ⟨false, none, none, none, 1, false, false,
          CircuitState.OPEN⟩ fb).circuit_state = CircuitState.OPEN
        rw [hfbst]
      | ok o =>
        cases o with
        | none =>
          show (applyFallback ⟨false, none, none, none, 1, false, false,
            CircuitState.OPEN⟩ fb).circuit_state = CircuitState.OPEN
          rw [hfbst]
        | some v => rfl

/-- C4, witness. -/
theorem C4_open_circuit_witness :
    (resilient_call (α := String) (fun _ => .ok "live") ⟨3, 5⟩ .opened none
        (some (.ok (some "cached")))).result =
      ⟨true, some "cached", none, none, 1, true, false, .OPEN⟩ :=
  (C4_open_circuit (fun _ => .ok "live") ⟨3, 5⟩ none
      (some (.ok (some "cached")))).2.1 "cached" rfl

/-- C5: `categorize_error` runs its lower-cased substring checks in the
fixed order rate-limited, client-error, configuration, server-error,
transient (message, then type name), first match winning; an error
containing both "401" and "timeout" (and no rate-limit marker) is
CLIENT_ERROR, and an error matching no marker is UNKNOWN. -/
theorem C5_categorize_order :
    (∀ e, has_rate_limited_marker e = true →
        categorize_error e = .RATE_LIMITED)
  ∧ (∀ e, has_rate_limited_marker e = false →
        has_client_error_marker e = true →
        categorize_error e = .CLIENT_ERROR)
  ∧ (∀ e, has_rate_limited_marker e = false →
        has_client_error_marker e = false →
        has_configuration_marker e = true →
        categorize_error e = .CONFIGURATION)
  ∧ (∀ e, has_rate_limited_marker e = false →
        has_client_error_marker e = false →
        has_configuration_marker e = false →
        has_server_error_marker e = true →
        categorize_error e = .SERVER_ERROR)
  ∧ (∀ e, has_rate_limited_marker e = false →
        has_client_error_marker e = false →
        has_configuration_marker e = false →
        has_server_error_marker e = false →
        (has_transient_str_marker e || has_transient_type_marker e) = true →
        categorize_error e = .TRANSIENT)
  ∧ (∀ e, has_rate_limited_marker e = false →
        has_client_error_marker e = false →
        has_configuration_marker e = false →
        has_server_error_marker e = false →
        has_transient_str_marker e = false →
        has_transient_type_marker e = false →
        categorize_error e = .UNKNOWN)
  ∧ categorize_error ⟨"401 Unauthorized: request timeout", "Exception"⟩
      = .CLIENT_ERROR
  ∧ categorize_error ⟨"Something weird happened", "Exception"⟩
      = .UNKNOWN := by
  refine ⟨?_, ?_, ?_, ?_, ?_, ?_, by decide, by decide⟩
  · intro e h1
    simp [categorize_error, h1]
  · intro e h1 h2
    simp [categorize_error, h1, h2]
  · intro e h1 h2 h3
    simp [categorize_error, h1, h2, h3]
  · intro e h1 h2 h3 h4
    simp [categorize_error, h1, h2, h3, h4]
  · intro e h1 h2 h3 h4 h5
    rcases Bool.or_eq_true_iff.mp h5 with h | h <;>
      simp [categorize_error, h1, h2, h3, h4, h]
  · intro e h1 h2 h3 h4 h5 h6
    simp [categorize_error, h1, h2, h3, h4, h5, h6]

/-- C5, witness. -/
theorem C5_categorize_order_witness :
    categorize_error ⟨"401 Unauthorized: request timeout", "Exception"⟩
      = .CLIENT_ERROR :=
  C5_categorize_order.2.1 ⟨"401 Unauthorized: request timeout", "Exception"⟩
    (by decide) (by decide)

/-- C6: `check_rate_limit` returns `(n <= max_requests, n)` when the
backend increment yields a count `n`, and fails open with `(true, 0)` when
the increment fails; with `max_requests = 30`, counts 1..30 are allowed
and count 31 is not. -/
theorem C6_check_rate_limit {σ : Type} (be : Backend σ) (s : σ)
    (key : String) (window_seconds : Int) :
    (∀ (max_requests n : Int) (s1 : σ), be.incr s key = (some n, s1) →
        (check_rate_limit be s key max_requests window_seconds).1
          = (decide (n ≤ max_requests), n))
  ∧ (∀ (max_requests : Int) (s1 : σ), be.incr s key = (none, s1) →
        (check_rate_limit be s key max_requests window_seconds).1 = (true, 0))
  ∧ (∀ (n : Int) (s1 : σ), be.incr s key = (some n, s1) → 1 ≤ n → n ≤ 30 →
        (check_rate_limit be s key 30 window_seconds).1.1 = true)
  ∧ (∀ (s1 : σ), be.incr s key = (some 31, s1) →
        (check_rate_limit be s key 30 window_seconds).1.1 = false) := by
  refine ⟨?_, ?_, ?_, ?_⟩
  · intro mr n s1 h
    simp [check_rate_limit, h]
  · intro mr s1 h
    simp [check_rate_limit, h]
  · intro n s1 h h1 h30
    simp [check_rate_limit, h, h30]
  · intro s1 h
    simp [check_rate_limit, h]

/-- C6, witness: through the in-memory backend, the 31st increment against
a limit of 30 is rejected. -/
theorem C6_check_rate_limit_witness :
    (check_rate_limit (memBackend 0) ⟨[], [("rate:7", 30)]⟩ "rate:7" 30 60).1.1
      = false :=
  (C6_check_rate_limit (memBackend 0) ⟨[], [("rate:7", 30)]⟩ "rate:7" 60).2.2.2
    ⟨[], [("rate:7", 31)]⟩ rfl

/-- C7: `add_message` keeps at most the 20 most recent messages and only
ever increments `message_count` (by exactly one per call), so
`message_count >= len(messages)` is preserved across any sequence of
calls; starting from a fresh session, 25 sequential calls leave exactly
the 20 most recent messages (the oldest 5 evicted) and
`message_count = 25`. -/
theorem C7_session_invariants :
    (∀ (s : ConversationSession) (role content now : String),
        (s.add_message role content now).messages.length ≤ 20)
  ∧ (∀ (s : ConversationSession) (role content now : String),
        (s.add_message role content now).message_count = s.message_count + 1)
  ∧ (∀ (s : ConversationSession) (role content now : String),
        (s.messages.length : Int) ≤ s.message_count →
        ((s.add_message role content now).messages.length : Int)
          ≤ (s.add_message role content now).message_count)
  ∧ (∀ (s : ConversationSession) (calls : List (String × String × String)),
        (ConversationSession.add_messages s calls).message_count
          = s.message_count + calls.length)
  ∧ (∀ (s : ConversationSession) (calls : List (String × String × String)),
        (s.messages.length : Int) ≤ s.message_count →
        ((ConversationSession.add_messages s calls).messages.length : Int)
          ≤ (ConversationSession.add_messages s calls).message_count)
  ∧ (ConversationSession.add_messages (ConversationSession.fresh 1 "t0")
        ((List.range 25).map (fun i => ("user", toString i, "t")))).messages
      = ((List.range 25).drop 5).map
          (fun i => ⟨"user", toString i, "t"⟩)
  ∧ (ConversationSession.add_messages (ConversationSession.fresh 1 "t0")
        ((List.range 25).map (fun i => ("user", toString i, "t")))).message_count
      = 25 := by
  have hlen : ∀ (s : ConversationSession) (role content now : String),
      (s.add_message role content now).messages.length
        = min (s.messages.length + 1) 20 := by
    intro s role content now
    by_cases h : 20 < s.messages.length + 1
    · simp [ConversationSession.add_message, h]
      omega
    · simp [ConversationSession.add_message, h]
      omega
  have hcount : ∀ (s : ConversationSession) (role content now : String),
      (s.add_message role content now).message_count
        = s.message_count + 1 := by
    intro s role content now
    rfl
  have hpres : ∀ (s : ConversationSession) (role content now : String),
      (s.messages.length : Int) ≤ s.message_count →
      ((s.add_message role content now).messages.length : Int)
        ≤ (s.add_message role content now).message_count := by
    intro s role content now h
    rw [hlen, hcount]
    have : min (s.messages.length + 1) 20 ≤ s.messages.length + 1 :=
      Nat.min_le_left _ _
    push_cast
    push_cast at h
    omega
  refine ⟨?_, hcount, hpres, ?_, ?_, by decide, by decide⟩
  · intro s role content now
    rw [hlen]
    omega
  · intro s calls
    induction calls generalizing s with
    | nil => simp [ConversationSession.add_messages]
    | cons c cs ih =>
      show (ConversationSession.add_messages
        (s.add_message c.1 c.2.1 c.2.2) cs).message_count = _
      rw [ih, hcount]
      simp
      omega
  · intro s calls
    induction calls generalizing s with
    | nil => exact fun h => h
    | cons c cs ih =>
      intro h
      exact ih (s.add_message c.1 c.2.1 c.2.2) (hpres s c.1 c.2.1 c.2.2 h)

/-- C7, witness. -/
theorem C7_session_invariants_witness :
    ((ConversationSession.add_messages (ConversationSession.fresh 1 "t0")
        [("user", "hi", "t1"), ("assistant", "hello", "t2")]).messages.length : Int)
      ≤ (ConversationSession.add_messages (ConversationSession.fresh 1 "t0")
        [("user", "hi", "t1"), ("assistant", "hello", "t2")]).message_count :=
  C7_session_invariants.2.2.2.2.1 (ConversationSession.fresh 1 "t0")
    [("user", "hi", "t1"), ("assistant", "hello", "t2")] (by decide)

theorem msgFromJson_msgToJson (m : Message) :
    msgFromJson (msgToJson m) = some m := by
  cases m
  rfl

theorem mapMOpt_msg_roundtrip (ms : List Message) :
    mapMOpt msgFromJson (ms.map msgToJson) = some ms := by
  induction ms with
  | nil => rfl
  | cons m ms ih => simp [mapMOpt, msgFromJson_msgToJson, ih]

theorem mapMOpt_str_roundtrip (ss : List String) :
    mapMOpt jAsStr (ss.map JVal.str) = some ss := by
  induction ss with
  | nil => rfl
  | cons x xs ih => simp [mapMOpt, jAsStr, ih]

theorem jAsOptStr_roundtrip (o : Option String) :
    jAsOptStr (optStrToJson o) = some o := by
  cases o <;> rfl

/-- C8: reconstructing a session from the JSON document produced by
`to_json` (the serialized `asdict` form) yields an object equal to the
original in every field, including the nested preference lists, style
profile and wardrobe. -/
theorem C8_json_roundtrip (s : ConversationSession) :
    ConversationSession.from_json (ConversationSession.to_json s) = some s := by
  simp [ConversationSession.to_json, ConversationSession.from_json,
    sessionFieldNames, jGet, jField, jAsInt, jAsStr, jAsObj, jAsArr,
    jAsStrList, jAsMsgList, jAsOptStr_roundtrip, mapMOpt_msg_roundtrip,
    mapMOpt_str_roundtrip]

/-- C9: every `FallbackType` has a catalog entry in `FALLBACKS`, and
`get_fallback` returns a non-empty message for every type except
`CACHE_UNAVAILABLE`, for which it returns exactly the empty string. -/
theorem C9_fallback_catalog :
    (∀ t, (fallbackFor t).isSome = true)
  ∧ (∀ t, t ≠ FallbackType.CACHE_UNAVAILABLE → get_fallback t ≠ "")
  ∧ get_fallback FallbackType.CACHE_UNAVAILABLE = "" := by
  refine ⟨by decide, by decide, by decide⟩

/-- C9, witness. -/
theorem C9_fallback_catalog_witness :
    get_fallback FallbackType.TIMEOUT ≠ "" :=
  C9_fallback_catalog.2.1 FallbackType.TIMEOUT (by decide)

theorem getA_setA_self (l : List (String × β)) (k : String) (v : β) :
    getA (setA l k v) k = some v := by
  have hmap : ∀ (l : List (String × β)),
      (l.find? (fun p => p.1 == k)).isSome = true →
      getA (l.map (fun p => if p.1 == k then (k, v) else p)) k = some v := by
    intro l
    induction l with
    | nil => intro h; simp at h
    | cons hd tl ih =>
      intro h
      cases hk : (hd.1 == k) with
      | true => simp [getA, List.find?, hk]
      | false =>
        simp only [List.find?, hk] at h
        simp only [List.map_cons, hk, Bool.false_eq_true, if_false]
        simp only [getA, List.find?, hk] at ih ⊢
        exact ih h
  have happ : ∀ (l : List (String × β)),
      (l.find? (fun p => p.1 == k)).isSome = false →
      getA (l ++ [(k, v)]) k = some v := by
    intro l
    induction l with
    | nil => intro h; simp [getA, List.find?]
    | cons hd tl ih =>
      intro h
      cases hk : (hd.1 == k) with
      | true => simp [List.find?, hk] at h
      | false =>
        simp only [List.find?, hk] at h
        simp only [List.cons_append]
        simp only [getA, List.find?, hk] at ih ⊢
        exact ih h
  unfold setA
  by_cases h : (l.find? (fun p => p.1 == k)).isSome = true
  · rw [if_pos h]
    exact hmap l h
  · rw [if_neg h]
    refine happ l ?_
    rwa [Bool.not_eq_true] at h

theorem getA_delA_self (l : List (String × β)) (k : String) :
    getA (delA l k) k = none := by
  induction l with
  | nil => rfl
  | cons hd tl ih =>
    cases hk : (hd.1 == k) with
    | true =>
      have hbne : (hd.1 != k) = false := by simp [bne, hk]
      simp only [delA, List.filter_cons, hbne, Bool.false_eq_true, if_false]
      simp only [delA] at ih
      exact ih
    | false =>
      have hbne : (hd.1 != k) = true := by simp [bne, hk]
      simp only [delA, List.filter_cons, hbne, if_true]
      simp only [delA, getA, List.find?, hk] at ih ⊢
      exact ih

/-- C10: on the in-memory backend `incr` ignores expiry entirely —
`expire` never touches the counter table (it only snapshots the count into
the expiring store), so after `expire(key, ttl)` and the elapse of `ttl` a
subsequent `incr(key)` continues from the previous count rather than
restarting at 1 (even though a `get` of the snapshot now misses), and only
an explicit `delete` restarts the counter. -/
theorem C10_incr_ignores_expiry (c : MemoryCache) (key : String)
    (ttl now now' : Int) :
    ((c.expire key ttl now).2).counters = c.counters
  ∧ (((c.expire key ttl now).2).incr key).1
      = (getA c.counters key).getD 0 + 1
  ∧ (∀ n, getA c.counters key = some n → 1 ≤ n →
      (((c.expire key ttl now).2).incr key).1 ≠ 1)
  ∧ (∀ n, getA c.data key = none → getA c.counters key = some n →
      now + ttl < now' →
      (((c.expire key ttl now).2).get key now').1 = none)
  ∧ (((c.delete key).2).incr key).1 = 1 := by
  have hcounters : ((c.expire key ttl now).2).counters = c.counters := by
    unfold MemoryCache.expire
    cases hd : getA c.data key with
    | some e => rfl
    | none =>
      cases hc : getA c.counters key with
      | some n => rfl
      | none => rfl
  have hincr : (((c.expire key ttl now).2).incr key).1
      = (getA c.counters key).getD 0 + 1 := by
    unfold MemoryCache.incr
    rw [hcounters]
  refine ⟨hcounters, hincr, ?_, ?_, ?_⟩
  · intro n hn h1
    rw [hincr, hn]
    simp
    omega
  · intro n hd hn hlt
    unfold MemoryCache.get MemoryCache.expire
    rw [hd, hn]
    simp only [getA_setA_self]
    have : CacheEntry.is_expired ⟨toString n, some (now + ttl)⟩ now' = true := by
      simp [CacheEntry.is_expired, hlt]
    rw [this]
    rfl
  · unfold MemoryCache.incr MemoryCache.delete
    simp [getA_delA_self]

/-- C10, witness: a counter at 3, expired with a 60-tick TTL at time 0 and
read again at time 61: the snapshot is gone but the next increment yields
4, not 1. -/
theorem C10_incr_ignores_expiry_witness :
    ((((⟨[], [("rate:9", 3)]⟩ : MemoryCache).expire "rate:9" 60 0).2).incr
        "rate:9").1 ≠ 1
  ∧ ((((⟨[], [("rate:9", 3)]⟩ : MemoryCache).expire "rate:9" 60 0).2).get
        "rate:9" 61).1 = none :=
  ⟨(C10_incr_ignores_expiry ⟨[], [("rate:9", 3)]⟩ "rate:9" 60 0 61).2.2.1
      3 rfl (by decide),
   (C10_incr_ignores_expiry ⟨[], [("rate:9", 3)]⟩ "rate:9" 60 0 61).2.2.2.1
      3 rfl rfl (by decide)⟩

